import Mathlib

/-!
Shallow embedding of the content-analysis backend (`src/backend/src/index.ts`).

The backend is a single Hono handler: it validates a URL, classifies the
platform by hostname substring, fetches the page, extracts a content record
with cheerio selectors, fans the record out to up to four AI providers, and
aggregates each provider's outcome into one JSON response.

External capabilities (the network `fetch`, `new URL`, `JSON.parse`, and the
cheerio selector queries on the fetched HTML) are modelled as explicit
function/value parameters; all control flow of the backend itself is embedded
as executable Lean definitions.
-/

/-- JavaScript/JSON values as produced by `JSON.parse` and consumed by
`c.json`.  Numbers are modelled as integers (no claim depends on fractional
numerics). -/
inductive Json where
  | null
  | bool (b : Bool)
  | num (n : Int)
  | str (s : String)
  | arr (elems : List Json)
  | obj (fields : List (String × Json))
deriving Repr

/-- JavaScript truthiness of a JSON value: `null`, `false`, `0` and `""` are
falsy; every array and object is truthy. -/
def jsTruthy : Json → Bool
  | Json.null => false
  | Json.bool b => b
  | Json.num n => n != 0
  | Json.str s => s != ""
  | Json.arr _ => true
  | Json.obj _ => true

/-- First binding of a key in a JSON object field list. -/
def lookupField : List (String × Json) → String → Option Json
  | [], _ => none
  | (k, v) :: rest, key => if k = key then some v else lookupField rest key

/-- JavaScript property access `j.key`: `some` value when `j` is an object
with that key, `none` (i.e. `undefined`) otherwise. -/
def jsGet : Json → String → Option Json
  | Json.obj fields, key => lookupField fields key
  | _, _ => none

/-- Whether a JSON value is an object carrying the given key. -/
def hasField (j : Json) (k : String) : Bool := (jsGet j k).isSome

/-- Matching of `pat` against the front of a character list. -/
def leadMatch : List Char → List Char → Bool
  | [], _ => true
  | _ :: _, [] => false
  | a :: as, b :: bs => a == b && leadMatch as bs

/-- Anywhere-occurrence of `pat` inside a character list. -/
def subMatch (pat : List Char) : List Char → Bool
  | [] => pat.isEmpty
  | c :: rest => leadMatch pat (c :: rest) || subMatch pat rest

/-- JavaScript `s.includes(pat)`: substring containment. -/
def jsIncludes (s pat : String) : Bool := subMatch pat.toList s.toList

/-- Left-to-right non-overlapping global replacement, fuel-indexed so the
recursion is structural; the fuel is instantiated with the string length,
which always suffices because every step consumes at least one character. -/
def replaceSteps (pat rep : List Char) : Nat → List Char → List Char
  | 0, s => s
  | _ + 1, [] => []
  | n + 1, c :: rest =>
    if leadMatch pat (c :: rest) then
      rep ++ replaceSteps pat rep n (List.drop pat.length (c :: rest))
    else
      c :: replaceSteps pat rep n rest

/-- JavaScript `s.replace(/pat/g, rep)` for a fixed (non-regex) pattern. -/
def jsReplaceAll (s pat rep : String) : String :=
  if pat = "" then s
  else String.mk (replaceSteps pat.toList rep.toList s.toList.length s.toList)

/-- ASCII whitespace test used by `trim`. -/
def isWs (c : Char) : Bool := c == ' ' || c == '\t' || c == '\n' || c == '\r'

/-- Drop leading whitespace of a character list. -/
def trimLead : List Char → List Char
  | [] => []
  | c :: rest => if isWs c then trimLead rest else c :: rest

/-- JavaScript `s.trim()`: strip whitespace from both ends. -/
def jsTrim (s : String) : String :=
  String.mk ((trimLead ((trimLead s.toList).reverse)).reverse)

/-- JavaScript `a || b` on strings, where the only falsy string is `""`. -/
def jsOrStr (a b : String) : String := if a = "" then b else a

/-- JavaScript `attr() || b` where the attribute may be `undefined` (`none`)
or an empty string, both of which fall through to `b`. -/
def attrOr (a : Option String) (b : String) : String :=
  match a with
  | none => b
  | some s => if s = "" then b else s

/-- Outcome of one outbound provider `fetch`: either the promise rejected
(network error), or it resolved with a status code and a body; the body is
recorded as the result of `response.json()` — `none` when the body is not
JSON (so `.json()` throws). -/
inductive ProviderResponse where
  | networkError (msg : String)
  | response (status : Nat) (body : Option Json)

/-- Embedding of `analyzeWithOpenAICompatible` (index.ts lines 21–66).  The
request construction (API key, endpoint, model, prompt with
`content.substring(0, 3000)`) only feeds the outbound call, whose outcome is
the `resp` parameter; `parseJson` is the `JSON.parse` capability applied to
the choice's message content.  All thrown errors and the missing/empty
`choices` cases return `null` (the function's `catch`-all), so the result is
`Json.null` exactly on the failure paths. -/
def analyzeWithOpenAICompatible (parseJson : String → Option Json) :
    ProviderResponse → Json
  | ProviderResponse.networkError _ => Json.null
  | ProviderResponse.response _ none => Json.null
  | ProviderResponse.response _ (some data) =>
      match jsGet data "choices" with
      | some (Json.arr (c0 :: _)) =>
        match jsGet c0 "message" with
        | some msg =>
          match jsGet msg "content" with
          | some (Json.str contentStr) =>
            match parseJson contentStr with
            | some parsed => parsed
            | none => Json.obj [("keywords", Json.arr []),
                                ("summary", Json.str contentStr)]
          | _ => Json.null
        | none => Json.null
      | _ => Json.null

/-- Embedding of `analyzeWithGemini` (index.ts lines 69–106).  Same
conventions as `analyzeWithOpenAICompatible`; additionally the candidate's
text is cleaned of markdown code fences (`.replace(/```json/g, '')`,
`.replace(/```/g, '')`, `.trim()`) before `JSON.parse`, and the degraded
result's summary is that cleaned string. -/
def analyzeWithGemini (parseJson : String → Option Json) :
    ProviderResponse → Json
  | ProviderResponse.networkError _ => Json.null
  | ProviderResponse.response _ none => Json.null
  | ProviderResponse.response _ (some data) =>
      match jsGet data "candidates" with
      | some (Json.arr (c0 :: _)) =>
        match jsGet c0 "content" with
        | some content =>
          if jsTruthy content then
            match jsGet content "parts" with
            | some (Json.arr (p0 :: _)) =>
              match jsGet p0 "text" with
              | some (Json.str contentStr) =>
                let cleanedStr :=
                  jsTrim (jsReplaceAll (jsReplaceAll contentStr "```json" "") "```" "")
                match parseJson cleanedStr with
                | some parsed => parsed
                | none => Json.obj [("keywords", Json.arr []),
                                    ("summary", Json.str cleanedStr)]
              | _ => Json.null
            | _ => Json.null
          else Json.null
        | none => Json.null
      | _ => Json.null

/-- The entry written when an adapter resolved with a falsy value
(index.ts line 190). -/
def errEntry : Json := Json.obj [("error", Json.str "No data returned")]

/-- Embedding of the `runAnalysis` helper (index.ts lines 184–195): record the
awaited adapter result under the provider's name, replacing a falsy result by
the error entry.  The adapters are total (their `try`/`catch` converts every
throw into `null`), so the helper's own `catch` branch is unreachable and the
mapping is modelled as a list of key/value pairs extended by one entry. -/
def runAnalysis (providerName : String) (res : Json)
    (results : List (String × Json)) : List (String × Json) :=
  if jsTruthy res then results ++ [(providerName, res)]
  else results ++ [(providerName, errEntry)]

/-- The provider credentials from the environment bindings
(`DEEPSEEK_API_KEY`, `OPENAI_API_KEY`, `GEMINI_API_KEY`, `QWEN_API_KEY`); an
absent binding is the empty (falsy) string. -/
structure ProviderKeys where
  deepseekKey : String
  openaiKey : String
  geminiKey : String
  qwenKey : String

/-- JavaScript truthiness of a credential string (`if (c.env.X_API_KEY)`). -/
def keyPresent (k : String) : Bool := k != ""

/-- Outcomes of the four outbound provider calls, one per provider slot. -/
structure ProviderFetches where
  deepseek : ProviderResponse
  openai : ProviderResponse
  gemini : ProviderResponse
  qwen : ProviderResponse

/-- The synthesized placeholder entry used when no provider key is
configured (index.ts lines 241–245). -/
def demoEntry : Json :=
  Json.obj [("keywords", Json.arr [Json.str "Demo", Json.str "No API Key Configured"]),
            ("summary", Json.str "1. Please configure API keys in Cloudflare.\n2. Supported: DeepSeek, OpenAI, Gemini, Qwen.\n3. This is a demo result.")]

/-- One guarded dispatch of the fan-out: extend the accumulated mapping with
the provider's outcome when its key is truthy, leave it unchanged
otherwise. -/
def step (b : Bool) (n : String) (r : Json)
    (acc : List (String × Json)) : List (String × Json) :=
  if b then runAnalysis n r acc else acc

/-- The mapping accumulated by the four guarded dispatches, in source order
DeepSeek, OpenAI, Gemini, Qwen (index.ts lines 197–238). -/
def dispatched (keys : ProviderKeys) (parseJson : String → Option Json)
    (fetches : ProviderFetches) : List (String × Json) :=
  step (keyPresent keys.qwenKey) "Qwen"
    (analyzeWithOpenAICompatible parseJson fetches.qwen)
    (step (keyPresent keys.geminiKey) "Gemini"
      (analyzeWithGemini parseJson fetches.gemini)
      (step (keyPresent keys.openaiKey) "OpenAI"
        (analyzeWithOpenAICompatible parseJson fetches.openai)
        (step (keyPresent keys.deepseekKey) "DeepSeek"
          (analyzeWithOpenAICompatible parseJson fetches.deepseek) [])))

/-- Embedding of the fan-out section of the handler (index.ts lines 180–248):
for each provider whose key is truthy, run its adapter and record the outcome
under its name; if no provider was dispatched (`promises.length === 0`, i.e.
the accumulated mapping is empty), synthesize the single `Demo` entry.  Each
task writes only its own (distinct) key, so the `Promise.all` join is
modelled by the sequential accumulation — the resulting keyed mapping is the
same for every completion order. -/
def orchestrate (keys : ProviderKeys) (parseJson : String → Option Json)
    (fetches : ProviderFetches) : List (String × Json) :=
  if (dispatched keys parseJson fetches).isEmpty then [("Demo", demoEntry)]
  else dispatched keys parseJson fetches

/-- The names of the providers whose keys are configured, in dispatch
order. -/
def configuredNames (keys : ProviderKeys) : List String :=
  (if keyPresent keys.deepseekKey then ["DeepSeek"] else []) ++
  (if keyPresent keys.openaiKey then ["OpenAI"] else []) ++
  (if keyPresent keys.geminiKey then ["Gemini"] else []) ++
  (if keyPresent keys.qwenKey then ["Qwen"] else [])

/-- The fetched page as seen through the cheerio selector queries the handler
performs.  `attr('content')` results are `Option String` (`none` when the
attribute is absent); `.text()` results are plain strings. -/
structure Page where
  ogTitle : Option String
  titleText : String
  metaAuthor : Option String
  authorName : String
  descText : String
  contentText : String
  activityName : String
  jsName : String
  jsContent : String

/-- The mutable `contentData` record of the handler (index.ts lines
129–136). -/
structure ContentData where
  title : String
  author : String
  readCount : String
  commentCount : String
  content : String
  rawText : String

/-- Initial value of `contentData` before extraction. -/
def initialContent : ContentData :=
  { title := "", author := "Unknown", readCount := "N/A",
    commentCount := "N/A", content := "", rawText := "" }

/-- The platform-dispatched selector assignments (index.ts lines 152–167).
Note the dispatch tests `url.includes(...)` on the whole URL string, with the
xiaohongshu test first. -/
def platformExtract (url : String) (p : Page) : ContentData :=
  if jsIncludes url "xiaohongshu.com" then
    { initialContent with
        title := attrOr p.ogTitle (jsOrStr p.titleText ""),
        author := attrOr p.metaAuthor (jsOrStr p.authorName "Unknown"),
        rawText := jsOrStr p.descText (jsOrStr p.contentText "") }
  else if jsIncludes url "weixin.qq.com" then
    { initialContent with
        title := attrOr p.ogTitle (jsOrStr (jsTrim p.activityName) ""),
        author := attrOr p.metaAuthor (jsOrStr (jsTrim p.jsName) "Unknown"),
        rawText := jsOrStr (jsTrim p.jsContent) "" }
  else initialContent

/-- Extraction including the final fallback (index.ts lines 170–172): an
empty `rawText` is replaced by the title. -/
def extractContent (url : String) (p : Page) : ContentData :=
  if (platformExtract url p).rawText = "" then
    { platformExtract url p with rawText := (platformExtract url p).title }
  else platformExtract url p

/-- Outcome of the crawl `fetch` of the source page: rejection with an error
message, or a response with a status and the HTML text body. -/
inductive CrawlResponse where
  | networkError (msg : String)
  | response (status : Nat) (html : String)

/-- The `{ code, message, data: null }` error body. -/
def errBody (code : Int) (message : String) : Json :=
  Json.obj [("code", Json.num code), ("message", Json.str message),
            ("data", Json.null)]

/-- The `data` object of the success body: the spread `{ ...contentData,
aiResults: results }` (index.ts lines 253–256). -/
def dataJson (cd : ContentData) (results : List (String × Json)) : Json :=
  Json.obj [("title", Json.str cd.title), ("author", Json.str cd.author),
            ("readCount", Json.str cd.readCount),
            ("commentCount", Json.str cd.commentCount),
            ("content", Json.str cd.content), ("rawText", Json.str cd.rawText),
            ("aiResults", Json.obj results)]

/-- HTTP response: status code plus JSON body. -/
structure HttpResponse where
  status : Nat
  body : Json

/-- Embedding of the `POST /api/analyze` handler (index.ts lines 108–262).
Capabilities: `parseURL` is `new URL(·)` projected to the hostname (`none`
when the constructor throws), `crawl` is the outcome of the page fetch,
`load` is cheerio applied to the fetched HTML, `parseJson` is `JSON.parse`,
and `fetches` are the outcomes of the provider calls.  `bodyUrl` is
`body.url` (`none` when absent). -/
def handleAnalyze (parseURL : String → Option String) (crawl : CrawlResponse)
    (load : String → Page) (keys : ProviderKeys)
    (parseJson : String → Option Json) (fetches : ProviderFetches) :
    Option String → HttpResponse
  | none => ⟨400, errBody 400 "URL is required"⟩
  | some url =>
    if url = "" then ⟨400, errBody 400 "URL is required"⟩
    else
      match parseURL url with
      | none => ⟨400, errBody 400 "Invalid URL format"⟩
      | some hostname =>
        if !(jsIncludes hostname "xiaohongshu.com")
            && !(jsIncludes hostname "weixin.qq.com") then
          ⟨400, errBody 400 "Only Xiaohongshu and WeChat Official Account links are supported"⟩
        else
          match crawl with
          | CrawlResponse.networkError msg =>
            ⟨500, errBody 500 ("Failed to crawl content: " ++ msg)⟩
          | CrawlResponse.response st html =>
            if st < 200 ∨ 300 ≤ st then
              ⟨500, errBody 500 ("Failed to crawl content: Failed to fetch URL: " ++ toString st)⟩
            else
              let cd := extractContent url (load html)
              let results := orchestrate keys parseJson fetches
              ⟨200, Json.obj [("code", Json.num 200),
                              ("message", Json.str "Success"),
                              ("data", dataJson cd results)]⟩

/-- Concrete environment with no provider key configured. -/
def noKeys : ProviderKeys := ⟨"", "", "", ""⟩

/-- Concrete environment with all four provider keys configured. -/
def allKeys : ProviderKeys := ⟨"k1", "k2", "k3", "k4"⟩

/-- A `JSON.parse` capability that fails on every input (e.g. every provider
returned non-JSON prose). -/
def pjNone : String → Option Json := fun _ => none

/-- Provider-call outcomes in which every outbound call failed at the
transport layer. -/
def noFetches : ProviderFetches :=
  ⟨ProviderResponse.networkError "x", ProviderResponse.networkError "x",
   ProviderResponse.networkError "x", ProviderResponse.networkError "x"⟩

/-- A page with no author markup and all body-text selectors empty, but a
social-preview title present. -/
def pageEmptyTexts : Page :=
  { ogTitle := some "Title-X", titleText := "", metaAuthor := none,
    authorName := "", descText := "", contentText := "", activityName := "",
    jsName := "", jsContent := "" }

/-- A URL whose hostname carries only the weixin marker but whose query
string carries the xiaohongshu marker. -/
def mixedUrl : String := "https://mp.weixin.qq.com/s?from=xiaohongshu.com"

/-- A page on which the xiaohongshu body selector and the weixin body
selector yield different texts, so the applied selector set is observable. -/
def pageMixed : Page :=
  { ogTitle := some "T", titleText := "", metaAuthor := none, authorName := "",
    descText := "XHS-DESC", contentText := "", activityName := "", jsName := "",
    jsContent := "WX-CONTENT" }

/-- Chat-style provider body whose message content is prose, not JSON. -/
def oaiParseFailBody : Json :=
  Json.obj [("choices", Json.arr [Json.obj [("message",
    Json.obj [("content", Json.str "plain prose")])]])]

/-- Gemini body whose candidate text is a fenced non-JSON payload. -/
def gemParseFailBody : Json :=
  Json.obj [("candidates", Json.arr [Json.obj [("content",
    Json.obj [("parts", Json.arr [Json.obj [("text", Json.str "```json hi```")]])])]])]

/-- Whether a decoded chat-style body has a non-empty `choices` array. -/
def hasNonemptyChoices (data : Json) : Bool :=
  match jsGet data "choices" with
  | some (Json.arr (_ :: _)) => true
  | _ => false

/-- Whether a decoded Gemini body has a non-empty `candidates` array. -/
def hasNonemptyCandidates (data : Json) : Bool :=
  match jsGet data "candidates" with
  | some (Json.arr (_ :: _)) => true
  | _ => false

/-- A choice content string that is valid JSON of the instructed shape. -/
def okContentStr : String := "\x7b\"keywords\":[\"k1\"],\"summary\":\"s1\"\x7d"

/-- The JSON value `JSON.parse` yields on `okContentStr`. -/
def okPayload : Json :=
  Json.obj [("keywords", Json.arr [Json.str "k1"]), ("summary", Json.str "s1")]

/-- A `JSON.parse` capability agreeing with real `JSON.parse` on
`okContentStr` (the only string the scenario applies it to). -/
def pjOk : String → Option Json :=
  fun s => if s = okContentStr then some okPayload else none

/-- A provider body with a well-formed choice list, as could accompany any
HTTP status. -/
def non2xxBody : Json :=
  Json.obj [("choices", Json.arr [Json.obj [("message",
    Json.obj [("content", Json.str okContentStr)])]])]

/-- A hostname that is not a platform domain but contains the xiaohongshu
marker as a substring. -/
def lenientHost : String := "xiaohongshu.com.evil.example"

/-- The per-entry invariant of the aggregated mapping: an entry is the fixed
error object, the fixed demo object, or a truthy value returned by an
adapter (a parsed provider payload or a degraded summary object). -/
def entryOk (e : String × Json) : Prop :=
  e.2 = errEntry ∨ e.2 = demoEntry ∨ jsTruthy e.2 = true

/-- A parse capability agreeing with `JSON.parse` on `"true"` (the only
string the scenario applies it to): `JSON.parse` maps `"true"` to the
boolean `true`. -/
def pjTrue : String → Option Json :=
  fun s => if s = "true" then some (Json.bool true) else none

/-- Provider keys with only DeepSeek configured. -/
def dsKeys : ProviderKeys := ⟨"k1", "", "", ""⟩

/-- Provider call outcomes in which DeepSeek answers 200 with a choice whose
message content is the JSON text `true`. -/
def dsFetches : ProviderFetches :=
  ⟨ProviderResponse.response 200 (some (Json.obj [("choices", Json.arr [Json.obj [("message",
      Json.obj [("content", Json.str "true")])]])])),
   ProviderResponse.networkError "x", ProviderResponse.networkError "x",
   ProviderResponse.networkError "x"⟩

/-- The shape the claim asserts for every `aiResults` entry: an object with
`keywords` and `summary` fields, or an object with an `error` field. -/
def claimedShape (j : Json) : Bool :=
  (hasField j "keywords" && hasField j "summary") || hasField j "error"

theorem runAnalysis_map_fst (n : String) (r : Json) (acc : List (String × Json)) :
    (runAnalysis n r acc).map Prod.fst = acc.map Prod.fst ++ [n] := by
  unfold runAnalysis; split <;> simp

theorem runAnalysis_isEmpty (n : String) (r : Json) (acc : List (String × Json)) :
    (runAnalysis n r acc).isEmpty = false := by
  unfold runAnalysis; split <;> (cases acc <;> rfl)

theorem runAnalysis_mem (n : String) (r : Json) (acc : List (String × Json))
    (e : String × Json) (he : e ∈ runAnalysis n r acc) :
    e ∈ acc ∨ e.2 = errEntry ∨ jsTruthy e.2 = true := by
  unfold runAnalysis at he
  split at he
  · rcases List.mem_append.1 he with h | h
    · exact Or.inl h
    · rename_i ht
      right; right
      have he2 : e = (n, r) := by simpa using h
      rw [he2]; exact ht
  · rcases List.mem_append.1 he with h | h
    · exact Or.inl h
    · right; left
      have he2 : e = (n, errEntry) := by simpa using h
      rw [he2]

/-- C1: for every provider set of size k in which all k providers have a
credential configured (k ≥ 1, so that at least one adapter is dispatched; the
zero-provider case is the synthesized placeholder of C5), the mapping
returned by the orchestrator has exactly k keys, one per configured provider
and with no duplicates, regardless of the outcome of the underlying calls
(`parseJson` and `fetches` are universally quantified, so any number of
adapter failures is covered): no provider's failure removes another
provider's entry or aborts the batch. -/
theorem orchestrator_total_coverage (keys : ProviderKeys)
    (parseJson : String → Option Json) (fetches : ProviderFetches)
    (hk : configuredNames keys ≠ []) :
    (orchestrate keys parseJson fetches).map Prod.fst = configuredNames keys ∧
    ((orchestrate keys parseJson fetches).map Prod.fst).Nodup := by
  unfold orchestrate dispatched step configuredNames at *
  cases hd : keyPresent keys.deepseekKey <;>
  cases ho : keyPresent keys.openaiKey <;>
  cases hg : keyPresent keys.geminiKey <;>
  cases hq : keyPresent keys.qwenKey <;>
    simp [hd, ho, hg, hq, runAnalysis_map_fst, runAnalysis_isEmpty] at hk ⊢

/-- Witness for C1: with all four keys configured and every provider call
failing, the mapping still has all four provider names as its keys. -/
theorem orchestrator_total_coverage_witness :
    (orchestrate allKeys pjNone noFetches).map Prod.fst = configuredNames allKeys ∧
    ((orchestrate allKeys pjNone noFetches).map Prod.fst).Nodup :=
  orchestrator_total_coverage allKeys pjNone noFetches (by decide)

/-- C5: if zero providers have credentials configured, the orchestrator
dispatches nothing (the result is a constant, independent of the universally
quantified call outcomes `parseJson` and `fetches`) and the returned mapping
is exactly the single synthesized `Demo` entry with example keywords and the
instructional summary. -/
theorem zero_provider_placeholder (keys : ProviderKeys)
    (parseJson : String → Option Json) (fetches : ProviderFetches)
    (h1 : keys.deepseekKey = "") (h2 : keys.openaiKey = "")
    (h3 : keys.geminiKey = "") (h4 : keys.qwenKey = "") :
    orchestrate keys parseJson fetches =
      [("Demo",
        Json.obj [("keywords", Json.arr [Json.str "Demo", Json.str "No API Key Configured"]),
                  ("summary", Json.str "1. Please configure API keys in Cloudflare.\n2. Supported: DeepSeek, OpenAI, Gemini, Qwen.\n3. This is a demo result.")])] := by
  simp [orchestrate, dispatched, step, keyPresent, h1, h2, h3, h4, demoEntry]

/-- Witness for C5: the concrete key-less environment yields exactly the
placeholder entry. -/
theorem zero_provider_placeholder_witness :
    orchestrate noKeys pjNone noFetches =
      [("Demo",
        Json.obj [("keywords", Json.arr [Json.str "Demo", Json.str "No API Key Configured"]),
                  ("summary", Json.str "1. Please configure API keys in Cloudflare.\n2. Supported: DeepSeek, OpenAI, Gemini, Qwen.\n3. This is a demo result.")])] :=
  zero_provider_placeholder noKeys pjNone noFetches rfl rfl rfl rfl

theorem extractContent_title (url : String) (p : Page) :
    (extractContent url p).title = (platformExtract url p).title := by
  unfold extractContent; split <;> rfl

theorem extractContent_author (url : String) (p : Page) :
    (extractContent url p).author = (platformExtract url p).author := by
  unfold extractContent; split <;> rfl

theorem platformExtract_rawText_empty (url : String) (p : Page)
    (h1 : p.descText = "") (h2 : p.contentText = "") (h3 : jsTrim p.jsContent = "") :
    (platformExtract url p).rawText = "" := by
  unfold platformExtract
  split
  · simp [jsOrStr, h1, h2]
  · split
    · simp [jsOrStr, h3]
    · rfl

/-- C3: extraction is total — `extractContent` is a total Lean function, so
every HTML input (any `Page`, including the one induced by the empty string)
and every platform yields a record with every field set; moreover if all
`rawText` selectors yield empty text then `rawText` is set to the title, and
consequently `rawText` is never empty when the title is non-empty. -/
theorem extraction_total (url : String) (p : Page) :
    ((p.descText = "" ∧ p.contentText = "" ∧ jsTrim p.jsContent = "") →
      (extractContent url p).rawText = (extractContent url p).title) ∧
    ((extractContent url p).title ≠ "" → (extractContent url p).rawText ≠ "") := by
  constructor
  · rintro ⟨h1, h2, h3⟩
    have hr := platformExtract_rawText_empty url p h1 h2 h3
    rw [extractContent_title]
    unfold extractContent
    simp [hr]
  · intro ht
    rw [extractContent_title] at ht
    unfold extractContent
    by_cases hr : (platformExtract url p).rawText = ""
    · simpa [hr] using ht
    · simp [hr]

/-- Witness for C3: on a xiaohongshu URL whose page has all body selectors
empty, `rawText` falls back to the (non-empty) title. -/
theorem extraction_total_witness :
    (extractContent "https://www.xiaohongshu.com/explore/abc123" pageEmptyTexts).rawText =
      (extractContent "https://www.xiaohongshu.com/explore/abc123" pageEmptyTexts).title ∧
    (extractContent "https://www.xiaohongshu.com/explore/abc123" pageEmptyTexts).rawText ≠ "" :=
  ⟨(extraction_total "https://www.xiaohongshu.com/explore/abc123" pageEmptyTexts).1 ⟨rfl, rfl, rfl⟩,
   (extraction_total "https://www.xiaohongshu.com/explore/abc123" pageEmptyTexts).2 (by decide)⟩

/-- C9: the extracted author is the first non-empty of the author metadata
tag, then the platform-specific author element (`.author-name` for
xiaohongshu, trimmed `#js_name` for weixin), then the literal `"Unknown"`;
in particular with no author markup at all the author is exactly
`"Unknown"`. -/
theorem author_fallback_chain (url : String) (p : Page) :
    (∀ s, p.metaAuthor = some s → s ≠ "" →
      (extractContent url p).author =
        (if jsIncludes url "xiaohongshu.com" ∨ jsIncludes url "weixin.qq.com"
         then s else "Unknown")) ∧
    ((p.metaAuthor = none ∨ p.metaAuthor = some "") →
      jsIncludes url "xiaohongshu.com" = true → p.authorName ≠ "" →
      (extractContent url p).author = p.authorName) ∧
    ((p.metaAuthor = none ∨ p.metaAuthor = some "") →
      jsIncludes url "xiaohongshu.com" = false →
      jsIncludes url "weixin.qq.com" = true → jsTrim p.jsName ≠ "" →
      (extractContent url p).author = jsTrim p.jsName) ∧
    ((p.metaAuthor = none ∨ p.metaAuthor = some "") →
      p.authorName = "" → jsTrim p.jsName = "" →
      (extractContent url p).author = "Unknown") := by
  refine ⟨?_, ?_, ?_, ?_⟩
  · intro s hs hne
    rw [extractContent_author]
    unfold platformExtract
    by_cases hx : jsIncludes url "xiaohongshu.com" = true <;>
    by_cases hw : jsIncludes url "weixin.qq.com" = true <;>
      simp [hx, hw, hs, attrOr, hne, initialContent]
  · intro hm hx ha
    rw [extractContent_author]
    unfold platformExtract
    rcases hm with hm | hm <;> simp [hx, hm, attrOr, jsOrStr, ha]
  · intro hm hx hw hj
    rw [extractContent_author]
    unfold platformExtract
    rcases hm with hm | hm <;> simp [hx, hw, hm, attrOr, jsOrStr, hj]
  · intro hm ha hj
    rw [extractContent_author]
    unfold platformExtract
    by_cases hx : jsIncludes url "xiaohongshu.com" = true <;>
    by_cases hw : jsIncludes url "weixin.qq.com" = true <;>
    rcases hm with hm | hm <;>
      simp [hx, hw, hm, ha, hj, attrOr, jsOrStr, initialContent]

/-- Witness for C9: a xiaohongshu page with no author markup extracts the
author `"Unknown"`. -/
theorem author_fallback_chain_witness :
    (extractContent "https://www.xiaohongshu.com/explore/abc123" pageEmptyTexts).author = "Unknown" :=
  (author_fallback_chain "https://www.xiaohongshu.com/explore/abc123" pageEmptyTexts).2.2.2
    (Or.inl rfl) rfl rfl

/-- C10: the platform used at extraction is decided by a substring test on
the entire URL string, xiaohongshu first — whenever the whole URL contains
the xiaohongshu marker, the xiaohongshu selector set is applied, whatever
the hostname was; concretely, `mixedUrl` has a hostname containing only the
weixin marker, yet extraction reads the xiaohongshu `div.desc` selector
(`"XHS-DESC"`) and not the weixin `#js_content` selector
(`"WX-CONTENT"`). -/
theorem platform_dispatch_full_url (url : String) (p : Page)
    (h : jsIncludes url "xiaohongshu.com" = true) :
    platformExtract url p =
      { initialContent with
          title := attrOr p.ogTitle (jsOrStr p.titleText ""),
          author := attrOr p.metaAuthor (jsOrStr p.authorName "Unknown"),
          rawText := jsOrStr p.descText (jsOrStr p.contentText "") } ∧
    jsIncludes "mp.weixin.qq.com" "xiaohongshu.com" = false ∧
    jsIncludes "mp.weixin.qq.com" "weixin.qq.com" = true ∧
    jsIncludes mixedUrl "xiaohongshu.com" = true ∧
    (extractContent mixedUrl pageMixed).rawText = "XHS-DESC" ∧
    jsTrim pageMixed.jsContent = "WX-CONTENT" := by
  refine ⟨?_, rfl, rfl, rfl, rfl, rfl⟩
  unfold platformExtract
  simp [h]

/-- Witness for C10: on `mixedUrl` (weixin hostname, xiaohongshu marker in
the query) the xiaohongshu selector assignments are the ones applied. -/
theorem platform_dispatch_full_url_witness :
    platformExtract mixedUrl pageMixed =
      { initialContent with
          title := attrOr pageMixed.ogTitle (jsOrStr pageMixed.titleText ""),
          author := attrOr pageMixed.metaAuthor (jsOrStr pageMixed.authorName "Unknown"),
          rawText := jsOrStr pageMixed.descText (jsOrStr pageMixed.contentText "") } :=
  (platform_dispatch_full_url mixedUrl pageMixed rfl).1

/-- C2 (amended): whenever a provider response carries a text payload but the
payload fails strict JSON decoding (`parseJson` returns `none` on it), the
adapter returns the degraded success `{keywords: [], summary: <provider
text>}` — verbatim for the chat-completion adapter; with markdown code
fences stripped and whitespace trimmed for the Gemini adapter — and never
the `null` failure marker. -/
theorem parse_failure_degrades (pj : String → Option Json) (st : Nat) :
    (∀ (data c0 msg : Json) (cs : List Json) (contentStr : String),
      jsGet data "choices" = some (Json.arr (c0 :: cs)) →
      jsGet c0 "message" = some msg →
      jsGet msg "content" = some (Json.str contentStr) →
      pj contentStr = none →
      analyzeWithOpenAICompatible pj (ProviderResponse.response st (some data)) =
        Json.obj [("keywords", Json.arr []), ("summary", Json.str contentStr)]) ∧
    (∀ (data c0 content p0 : Json) (cs ps : List Json) (contentStr : String),
      jsGet data "candidates" = some (Json.arr (c0 :: cs)) →
      jsGet c0 "content" = some content →
      jsTruthy content = true →
      jsGet content "parts" = some (Json.arr (p0 :: ps)) →
      jsGet p0 "text" = some (Json.str contentStr) →
      pj (jsTrim (jsReplaceAll (jsReplaceAll contentStr "```json" "") "```" "")) = none →
      analyzeWithGemini pj (ProviderResponse.response st (some data)) =
        Json.obj [("keywords", Json.arr []),
                  ("summary", Json.str (jsTrim (jsReplaceAll (jsReplaceAll contentStr "```json" "") "```" "")))]) := by
  constructor
  · intro data c0 msg cs contentStr h1 h2 h3 h4
    simp only [analyzeWithOpenAICompatible, h1, h2, h3, h4]
  · intro data c0 content p0 cs ps contentStr h1 h2 h3 h4 h5 h6
    simp only [analyzeWithGemini, h1, h2, h3, h4, h5, h6, if_true]

/-- Witness for C2: concrete parse failures degrade to the success shape for
both adapter families. -/
theorem parse_failure_degrades_witness :
    analyzeWithOpenAICompatible pjNone (ProviderResponse.response 200 (some oaiParseFailBody)) =
      Json.obj [("keywords", Json.arr []), ("summary", Json.str "plain prose")] ∧
    analyzeWithGemini pjNone (ProviderResponse.response 200 (some gemParseFailBody)) =
      Json.obj [("keywords", Json.arr []), ("summary", Json.str "hi")] :=
  ⟨(parse_failure_degrades pjNone 200).1 (Json.obj [("choices", Json.arr [Json.obj [("message",
      Json.obj [("content", Json.str "plain prose")])]])])
      (Json.obj [("message", Json.obj [("content", Json.str "plain prose")])])
      (Json.obj [("content", Json.str "plain prose")]) [] "plain prose" rfl rfl rfl rfl,
   (parse_failure_degrades pjNone 200).2 (Json.obj [("candidates", Json.arr [Json.obj [("content",
      Json.obj [("parts", Json.arr [Json.obj [("text", Json.str "```json hi```")]])])]])])
      (Json.obj [("content", Json.obj [("parts", Json.arr [Json.obj [("text", Json.str "```json hi```")]])])])
      (Json.obj [("parts", Json.arr [Json.obj [("text", Json.str "```json hi```")]])])
      (Json.obj [("text", Json.str "```json hi```")]) [] [] "```json hi```" rfl rfl rfl rfl rfl rfl⟩

/-- C2 counterexample: for the Gemini adapter the degraded summary is the
cleaned text (code fences stripped and trimmed), not the raw provider text —
with raw text `"```json hi```"` the summary is `"hi"`, so the claim's "raw
provider text as summary" is false as stated. -/
theorem gemini_summary_not_raw_cex :
    jsGet (analyzeWithGemini pjNone (ProviderResponse.response 200 (some gemParseFailBody))) "summary" =
      some (Json.str "hi") ∧
    ("hi" : String) ≠ "```json hi```" := by
  refine ⟨rfl, by decide⟩

/-- C4 (amended): both adapters are total functions (they always resolve —
every internal throw is converted into the `null` failure marker), and every
network error, undecodable body, or absent/empty choice/candidate list
yields `null`, which `runAnalysis` records as the Failure entry
`{error: "No data returned"}` under that provider's name; the HTTP status
code, however, is never consulted (the result is the same for any two
statuses with the same body), so a non-2xx status does not by itself produce
a Failure. -/
theorem adapter_failure_paths (pj : String → Option Json) :
    (∀ m, analyzeWithOpenAICompatible pj (ProviderResponse.networkError m) = Json.null) ∧
    (∀ st, analyzeWithOpenAICompatible pj (ProviderResponse.response st none) = Json.null) ∧
    (∀ st data, hasNonemptyChoices data = false →
      analyzeWithOpenAICompatible pj (ProviderResponse.response st (some data)) = Json.null) ∧
    (∀ m, analyzeWithGemini pj (ProviderResponse.networkError m) = Json.null) ∧
    (∀ st, analyzeWithGemini pj (ProviderResponse.response st none) = Json.null) ∧
    (∀ st data, hasNonemptyCandidates data = false →
      analyzeWithGemini pj (ProviderResponse.response st (some data)) = Json.null) ∧
    (∀ st st' body, analyzeWithOpenAICompatible pj (ProviderResponse.response st body) =
      analyzeWithOpenAICompatible pj (ProviderResponse.response st' body)) ∧
    (∀ st st' body, analyzeWithGemini pj (ProviderResponse.response st body) =
      analyzeWithGemini pj (ProviderResponse.response st' body)) ∧
    (∀ n acc, runAnalysis n Json.null acc =
      acc ++ [(n, Json.obj [("error", Json.str "No data returned")])]) := by
  refine ⟨fun m => rfl, fun st => rfl, ?_, fun m => rfl, fun st => rfl, ?_,
          ?_, ?_, fun n acc => rfl⟩
  · intro st data h
    simp only [analyzeWithOpenAICompatible]
    split
    · rename_i c0 cs heq
      exfalso
      unfold hasNonemptyChoices at h
      rw [heq] at h
      simp at h
    · rfl
  · intro st data h
    simp only [analyzeWithGemini]
    split
    · rename_i c0 cs heq
      exfalso
      unfold hasNonemptyCandidates at h
      rw [heq] at h
      simp at h
    · rfl
  · intro st st' body
    cases body <;> rfl
  · intro st st' body
    cases body <;> rfl

/-- Witness for C4: a transport error, an empty candidate list, and the
recording of the `null` marker as a Failure entry, all at concrete inputs. -/
theorem adapter_failure_paths_witness :
    analyzeWithOpenAICompatible pjNone (ProviderResponse.networkError "connection reset") = Json.null ∧
    analyzeWithGemini pjNone (ProviderResponse.response 200 (some (Json.obj [("candidates", Json.arr [])]))) = Json.null ∧
    runAnalysis "DeepSeek" Json.null [] =
      [("DeepSeek", Json.obj [("error", Json.str "No data returned")])] :=
  ⟨(adapter_failure_paths pjNone).1 "connection reset",
   (adapter_failure_paths pjNone).2.2.2.2.2.1 200 (Json.obj [("candidates", Json.arr [])]) rfl,
   (adapter_failure_paths pjNone).2.2.2.2.2.2.2.2 "DeepSeek" []⟩

/-- C4 counterexample: a provider response with HTTP status 500 whose body
still carries a well-formed choice list is processed as a success — the
entry recorded for the provider is the parsed payload, not a Failure entry
with a diagnostic reason — because the adapter never consults the status
code. -/
theorem non2xx_not_failure_cex :
    runAnalysis "OpenAI"
        (analyzeWithOpenAICompatible pjOk (ProviderResponse.response 500 (some non2xxBody))) [] =
      [("OpenAI", okPayload)] ∧
    jsGet okPayload "error" = none ∧
    hasField okPayload "keywords" = true := by
  refine ⟨rfl, rfl, rfl⟩

/-- C6: for every well-formed absolute URL whose hostname contains neither
platform marker as a substring, the handler answers 400 with the
unsupported-platform message; the crawl outcome is universally quantified
and unused (the response is the same constant for a network error as for any
fetched page), so the rejection happens before any network call.  Matching
is substring containment on the hostname, not domain equality: a hostname
merely containing the marker (`lenientHost`) passes classification, as the
crawl-stage 500 in the last conjunct shows. -/
theorem classifier_rejects_unsupported (parseURL : String → Option String)
    (crawl : CrawlResponse) (load : String → Page) (keys : ProviderKeys)
    (parseJson : String → Option Json) (fetches : ProviderFetches)
    (url host : String) (hu : url ≠ "") (hp : parseURL url = some host)
    (h1 : jsIncludes host "xiaohongshu.com" = false)
    (h2 : jsIncludes host "weixin.qq.com" = false) :
    handleAnalyze parseURL crawl load keys parseJson fetches (some url) =
      ⟨400, errBody 400 "Only Xiaohongshu and WeChat Official Account links are supported"⟩ ∧
    jsIncludes lenientHost "xiaohongshu.com" = true ∧
    lenientHost ≠ "xiaohongshu.com" ∧
    handleAnalyze (fun _ => some lenientHost) (CrawlResponse.networkError "boom")
        load keys parseJson fetches (some "u") =
      ⟨500, errBody 500 ("Failed to crawl content: " ++ "boom")⟩ := by
  refine ⟨?_, rfl, by decide, rfl⟩
  simp only [handleAnalyze]
  rw [if_neg hu]
  simp only [hp]
  simp [h1, h2]

/-- Witness for C6: a URL with hostname `example.com` is rejected with the
unsupported-platform message. -/
theorem classifier_rejects_unsupported_witness :
    handleAnalyze (fun _ => some "example.com") (CrawlResponse.networkError "x")
        (fun _ => pageEmptyTexts) noKeys pjNone noFetches (some "https://example.com/post") =
      ⟨400, errBody 400 "Only Xiaohongshu and WeChat Official Account links are supported"⟩ :=
  (classifier_rejects_unsupported (fun _ => some "example.com")
    (CrawlResponse.networkError "x") (fun _ => pageEmptyTexts) noKeys pjNone noFetches
    "https://example.com/post" "example.com" (by decide) rfl rfl rfl).1

/-- C7 (amended): for every request whose url string is present and
non-empty but does not parse as an absolute URL (`new URL` throws, i.e. the
`parseURL` capability returns `none`), the response is 400 with the
`Invalid URL format` message; the crawl outcome is universally quantified
and unused, so no crawl attempt occurs. -/
theorem invalid_url_rejected (parseURL : String → Option String)
    (crawl : CrawlResponse) (load : String → Page) (keys : ProviderKeys)
    (parseJson : String → Option Json) (fetches : ProviderFetches)
    (url : String) (hu : url ≠ "") (hp : parseURL url = none) :
    handleAnalyze parseURL crawl load keys parseJson fetches (some url) =
      ⟨400, errBody 400 "Invalid URL format"⟩ := by
  simp only [handleAnalyze]
  rw [if_neg hu]
  simp only [hp]

/-- Witness for C7: the request `{"url":"not-a-url"}` yields 400 with the
invalid-format message, for any crawl outcome. -/
theorem invalid_url_rejected_witness :
    handleAnalyze (fun _ => none) (CrawlResponse.networkError "x")
        (fun _ => pageEmptyTexts) noKeys pjNone noFetches (some "not-a-url") =
      ⟨400, errBody 400 "Invalid URL format"⟩ :=
  invalid_url_rejected (fun _ => none) (CrawlResponse.networkError "x")
    (fun _ => pageEmptyTexts) noKeys pjNone noFetches "not-a-url" (by decide) rfl

/-- C7 counterexample: the empty url string does not parse as an absolute
URL, yet the response message is `URL is required` (the earlier falsy-url
guard fires), not `Invalid URL format` — so the claim is false as stated for
the empty string. -/
theorem invalid_url_empty_string_cex :
    handleAnalyze (fun _ => none) (CrawlResponse.networkError "x")
        (fun _ => pageEmptyTexts) noKeys pjNone noFetches (some "") =
      ⟨400, errBody 400 "URL is required"⟩ ∧
    errBody 400 "URL is required" ≠ errBody 400 "Invalid URL format" := by
  refine ⟨rfl, ?_⟩
  simp [errBody]

theorem entryOk_runAnalysis (n : String) (r : Json) (acc : List (String × Json))
    (h : ∀ e ∈ acc, entryOk e) : ∀ e ∈ runAnalysis n r acc, entryOk e := by
  intro e he
  rcases runAnalysis_mem n r acc e he with h1 | h1 | h1
  · exact h e h1
  · exact Or.inl h1
  · exact Or.inr (Or.inr h1)

theorem entryOk_step (b : Bool) (n : String) (r : Json) (acc : List (String × Json))
    (h : ∀ e ∈ acc, entryOk e) : ∀ e ∈ step b n r acc, entryOk e := by
  unfold step
  cases b
  · simpa using h
  · simpa using entryOk_runAnalysis n r acc h

theorem entryOk_dispatched (keys : ProviderKeys) (parseJson : String → Option Json)
    (fetches : ProviderFetches) : ∀ e ∈ dispatched keys parseJson fetches, entryOk e := by
  unfold dispatched
  refine entryOk_step _ _ _ _ (entryOk_step _ _ _ _ (entryOk_step _ _ _ _ (entryOk_step _ _ _ _ ?_)))
  intro e he
  cases he

theorem entryOk_orchestrate (keys : ProviderKeys) (parseJson : String → Option Json)
    (fetches : ProviderFetches) : ∀ e ∈ orchestrate keys parseJson fetches, entryOk e := by
  unfold orchestrate
  split
  · intro e he
    have hd : e = ("Demo", demoEntry) := by simpa using he
    rw [hd]
    exact Or.inr (Or.inl rfl)
  · exact entryOk_dispatched keys parseJson fetches

theorem platformExtract_counts (url : String) (p : Page) :
    (platformExtract url p).readCount = "N/A" ∧
    (platformExtract url p).commentCount = "N/A" := by
  unfold platformExtract
  split
  · exact ⟨rfl, rfl⟩
  · split
    · exact ⟨rfl, rfl⟩
    · exact ⟨rfl, rfl⟩

theorem extractContent_counts (url : String) (p : Page) :
    (extractContent url p).readCount = "N/A" ∧
    (extractContent url p).commentCount = "N/A" := by
  unfold extractContent
  split
  · exact platformExtract_counts url p
  · exact platformExtract_counts url p

/-- C8 (amended): every successful request returns HTTP 200 with body
`{code: 200, message: "Success", data}` where `data` is the spread of the
whole content record — `title`, `author`, `readCount`, `commentCount`, and
additionally `content` and `rawText` — plus `aiResults`; `readCount` and
`commentCount` are always the placeholder `"N/A"` (they are never obtained
from static markup); and each `aiResults` entry is the fixed
`{error: "No data returned"}` object, the fixed demo object, or a truthy
value produced by an adapter (the provider's parsed JSON payload — of shape
`{keywords, summary}` only when the provider follows the instructed format,
which the code does not validate — or the degraded
`{keywords: [], summary: <text>}` object). -/
theorem success_envelope (parseURL : String → Option String)
    (load : String → Page) (keys : ProviderKeys)
    (parseJson : String → Option Json) (fetches : ProviderFetches)
    (url host html : String) (st : Nat)
    (hu : url ≠ "") (hp : parseURL url = some host)
    (hplat : (jsIncludes host "xiaohongshu.com" || jsIncludes host "weixin.qq.com") = true)
    (h200 : 200 ≤ st) (h300 : st < 300) :
    handleAnalyze parseURL (CrawlResponse.response st html) load keys parseJson fetches (some url) =
      ⟨200, Json.obj [("code", Json.num 200), ("message", Json.str "Success"),
                      ("data", dataJson (extractContent url (load html))
                                        (orchestrate keys parseJson fetches))]⟩ ∧
    (extractContent url (load html)).readCount = "N/A" ∧
    (extractContent url (load html)).commentCount = "N/A" ∧
    (∀ e ∈ orchestrate keys parseJson fetches,
      e.2 = errEntry ∨ e.2 = demoEntry ∨ jsTruthy e.2 = true) := by
  refine ⟨?_, (extractContent_counts url (load html)).1,
          (extractContent_counts url (load html)).2,
          entryOk_orchestrate keys parseJson fetches⟩
  have hc : (!(jsIncludes host "xiaohongshu.com")
      && !(jsIncludes host "weixin.qq.com")) = false := by
    cases hx : jsIncludes host "xiaohongshu.com" <;>
      cases hw : jsIncludes host "weixin.qq.com" <;> simp_all
  simp only [handleAnalyze]
  rw [if_neg hu]
  simp only [hp]
  simp only [hc, Bool.false_eq_true, if_false]
  rw [if_neg (by omega : ¬(st < 200 ∨ 300 ≤ st))]

/-- Witness for C8: a successful xiaohongshu request with no keys configured
carries the full content record plus the placeholder `aiResults`. -/
theorem success_envelope_witness :
    handleAnalyze (fun _ => some "www.xiaohongshu.com") (CrawlResponse.response 200 "HTML")
        (fun _ => pageEmptyTexts) noKeys pjNone noFetches
        (some "https://www.xiaohongshu.com/explore/abc123") =
      ⟨200, Json.obj [("code", Json.num 200), ("message", Json.str "Success"),
                      ("data", dataJson
                        (extractContent "https://www.xiaohongshu.com/explore/abc123"
                          ((fun _ => pageEmptyTexts) "HTML"))
                        (orchestrate noKeys pjNone noFetches))]⟩ :=
  (success_envelope (fun _ => some "www.xiaohongshu.com") (fun _ => pageEmptyTexts)
    noKeys pjNone noFetches "https://www.xiaohongshu.com/explore/abc123"
    "www.xiaohongshu.com" "HTML" 200 (by decide) rfl (by rfl)
    (by omega) (by omega)).1

/-- C8 counterexample: on a successful request the `data` object also
carries `content` and `rawText` keys (beyond the five the claim lists), and
the `DeepSeek` entry of `aiResults` is the bare parsed payload `true`, which
is neither a `{keywords, summary}` object nor an `{error}` object — the
adapter records whatever JSON the provider returned without validating its
shape. -/
theorem envelope_unvalidated_entry_cex :
    handleAnalyze (fun _ => some "www.xiaohongshu.com") (CrawlResponse.response 200 "HTML")
        (fun _ => pageMixed) dsKeys pjTrue dsFetches
        (some "https://www.xiaohongshu.com/explore/abc123") =
      ⟨200, Json.obj [("code", Json.num 200), ("message", Json.str "Success"),
        ("data", Json.obj [("title", Json.str "T"), ("author", Json.str "Unknown"),
                           ("readCount", Json.str "N/A"), ("commentCount", Json.str "N/A"),
                           ("content", Json.str ""), ("rawText", Json.str "XHS-DESC"),
                           ("aiResults", Json.obj [("DeepSeek", Json.bool true)])])]⟩ ∧
    claimedShape (Json.bool true) = false := by
  refine ⟨rfl, rfl⟩
